import Mathlib

/-!
# Verification of the session/cart core of Favs Bling (src/api.js)

Shallow embedding of the `FavsBlingStore` session / cart logic.

Conventions of the embedding:
* The mutable fields of the `FavsBlingStore` object, the Firebase realtime
  database (keyed `carts/<uid>`), and the browser `localStorage` entries the
  modelled code touches (`favsCart_<uid>`, `favsOrders`) are collected in one
  `State` record; every method becomes a total function `State → State`.
* Asynchronous remote operations that can throw (`cartRef.set`,
  `cartRef.once`, `fetch`) are modelled with explicit failure oracles passed
  as `Bool` / `Option` parameters; the source wraps every such call in
  try/catch, which is why the embedded functions are total.
* `console.log` / `console.error` and the toast messages posted by the
  source are folded into one append-only `msgs` list, so that a function
  which only reports something still differs from the identity.
* DOM-only work (`updateCartDisplay`, `updateAuthUI`, `showSection`,
  `generateReceipt`, modal handling, `checkoutForm.reset`) reads but never
  writes any modelled field and is dropped.
* Wall-clock data (`new Date().toISOString()`) is omitted from the `Order`
  record; display-only product fields (`image_url`, `description`, `stock`)
  are omitted from `Product`.
-/

/-- A Firebase user as the store sees it: unique id and email. -/
structure User where
  uid : String
  email : String
deriving DecidableEq, Repr

/-- A catalog product (display-only fields omitted). -/
structure Product where
  id : Nat
  name : String
  price : Int
  category : String
deriving DecidableEq, Repr

/-- One cart line: the spread `{...product, quantity: 1}` in `addToCart`
copies the product fields and adds a quantity. -/
structure CartLine where
  id : Nat
  name : String
  price : Int
  category : String
  quantity : Int
deriving DecidableEq, Repr

/-- `this.cart` is a JS array of cart lines. -/
abbrev Cart := List CartLine

/-- An order as built in `handlePaymentSuccess` (wall-clock `date` and the
constant `paymentMethod` / `verified` flags omitted). -/
structure Order where
  id : String
  customerEmail : String
  customerName : String
  customerPhone : String
  deliveryAddress : String
  items : Cart
  total : Int
  status : String
deriving DecidableEq, Repr

/-- A customer record, as touched by `updateCustomerStats`. -/
structure Customer where
  email : String
  orders : Int
  totalSpent : Int
deriving DecidableEq, Repr

/-- A string-keyed store of carts: models both the Firebase paths
`carts/<uid>` and the localStorage keys `favsCart_<uid>`. Writing prepends;
reading takes the first binding, so the list behaves as a map. -/
abbrev KVStore := List (String × Cart)

/-- Read a key (first binding wins). -/
def getK (k : String) (m : KVStore) : Option Cart :=
  (m.find? (fun e => e.fst == k)).map (fun e => e.snd)

/-- Write a key (prepend; `getK` sees the newest binding). -/
def setK (k : String) (v : Cart) (m : KVStore) : KVStore :=
  (k, v) :: m

/-- The modelled mutable state: the `FavsBlingStore` fields that the
session/cart core reads or writes, plus the two persistence stores. -/
structure State where
  currentUser : Option User
  isAdmin : Bool
  adminEmail : String
  products : List (String × List Product)
  cart : Cart
  orders : List Order
  customers : List Customer
  remote : KVStore
  localCarts : KVStore
  localOrders : List Order
  msgs : List String
deriving DecidableEq, Repr

/-- ASCII model of JS `String.prototype.toLowerCase`, used by the admin
check `user.email.toLowerCase() === this.adminEmail.toLowerCase()`. -/
def lowerStr (s : String) : String :=
  String.mk (s.data.map Char.toLower)

/-- `requireAuthForAction` (src/api.js 168-177): true iff a user is present;
otherwise posts a log-in prompt and returns false. -/
def requireAuthForAction (st : State) (action : String) : Bool × State :=
  match st.currentUser with
  | none => (false, { st with msgs := st.msgs ++ ["Please log in to " ++ action] })
  | some _ => (true, st)

/-- `saveCart` (src/api.js 253-273). `remoteFails` / `localFails` are the
oracles for whether `cartRef.set` resp. `localStorage.setItem` throw; both
throws are caught in the source, so the embedding is total. -/
def saveCart (remoteFails localFails : Bool) (st : State) : State :=
  match st.currentUser with
  | none => { st with msgs := st.msgs ++ ["No user logged in, skipping cart save"] }
  | some u =>
    if remoteFails then
      if localFails then
        { st with msgs := st.msgs ++
            ["Error saving user cart to Firebase", "Error saving to localStorage"] }
      else
        { st with
            localCarts := setK ("favsCart_" ++ u.uid) st.cart st.localCarts,
            msgs := st.msgs ++
              ["Error saving user cart to Firebase",
               "Saved user cart to localStorage as fallback"] }
    else
      { st with
          remote := setK ("carts/" ++ u.uid) st.cart st.remote,
          msgs := st.msgs ++ ["Saved user cart to Firebase"] }

/-- The continuation of `loadUserCart` after `await cartRef.once` resolves
(src/api.js 239-245): `snap` is `some v` when the snapshot exists with value
`v` and `none` when no record exists. Note that the source does NOT re-check
`this.currentUser` here: the continuation writes `this.cart` regardless of
what happened while the read was pending. -/
def loadUserCartResume (snap : Option Cart) (st : State) : State :=
  match snap with
  | some c => { st with cart := c, msgs := st.msgs ++ ["Loaded user cart"] }
  | none => { st with cart := [], msgs := st.msgs ++ ["No existing cart found, starting fresh"] }

/-- `loadUserCart` (src/api.js 232-250) run without interference: the read
of `carts/<uid>` resolves against the current remote store. `readFails` is
the oracle for the catch branch (246-249), which substitutes the empty cart. -/
def loadUserCart (readFails : Bool) (st : State) : State :=
  match st.currentUser with
  | none => st
  | some u =>
    if readFails then
      { st with cart := [], msgs := st.msgs ++ ["Error loading user cart"] }
    else
      loadUserCartResume (getK ("carts/" ++ u.uid) st.remote) st

/-- The synchronous prefix of a login event (src/api.js 181-193 entering
232-237): `handleUserLogin` assigns `currentUser` and `isAdmin`, then
`loadUserCart` checks `this.currentUser` and captures
`cartRef = firebase.database().ref('carts/' + this.currentUser.uid)` before
suspending on the awaited read. Returns the state at the suspension point
together with the captured database path of the pending read. -/
def loginUntilLoadAwait (st : State) (u : User) : State × String :=
  ({ st with
      currentUser := some u,
      isAdmin := lowerStr u.email == lowerStr st.adminEmail },
   "carts/" ++ u.uid)

/-- `handleUserLogin` (src/api.js 181-211) run without interference:
assign `currentUser` / `isAdmin`, await `loadUserCart`, then post the
welcome toast. -/
def handleUserLogin (readFails : Bool) (st : State) (u : User) : State :=
  let st1 := { st with
      currentUser := some u,
      isAdmin := lowerStr u.email == lowerStr st.adminEmail }
  let st2 := loadUserCart readFails st1
  { st2 with msgs := st2.msgs ++
      (if st2.isAdmin then ["Welcome Admin! Dashboard activated."]
       else ["Welcome " ++ u.email]) }

/-- `handleUserLogout` (src/api.js 214-229): clear `currentUser`, `isAdmin`
and the in-memory cart synchronously; no persistence call of any kind. -/
def handleUserLogout (st : State) : State :=
  { st with
      currentUser := none,
      isAdmin := false,
      cart := [],
      msgs := st.msgs ++ ["User fully logged out and cart cleared"] }

/-- `this.products[category].find(p => p.id === productId)` in `addToCart`
(src/api.js 463). An absent category makes the source throw a `TypeError`
on `undefined.find` before any state is written; call sites only pass
existing categories, and the embedding returns `none` (no mutation) there. -/
def findProduct (st : State) (productId : Nat) (category : String) : Option Product :=
  match (st.products.find? (fun e => e.fst == category)).map (fun e => e.snd) with
  | none => none
  | some l => l.find? (fun p => p.id == productId)

/-- In-place mutation of the first cart line with the given product id:
`existingItem.quantity += 1` in `addToCart` (468) and
`item.quantity += change` in `updateQuantity` (503). -/
def bumpFirst (productId : Nat) (delta : Int) : Cart → Cart
  | [] => []
  | it :: rest =>
    if it.id == productId then
      { it with quantity := it.quantity + delta } :: rest
    else
      it :: bumpFirst productId delta rest

/-- The spread `{...product, quantity: 1}` pushed by `addToCart` (470-473). -/
def lineOfProduct (p : Product) : CartLine :=
  { id := p.id, name := p.name, price := p.price, category := p.category, quantity := 1 }

/-- `addToCart` (src/api.js 457-479). -/
def addToCart (remoteFails localFails : Bool) (st : State)
    (productId : Nat) (category : String) : State :=
  match requireAuthForAction st "add items to cart" with
  | (false, st1) => st1
  | (true, st1) =>
    match findProduct st1 productId category with
    | none => st1
    | some product =>
      let cart1 :=
        match st1.cart.find? (fun it => it.id == productId) with
        | some _ => bumpFirst productId 1 st1.cart
        | none => st1.cart ++ [lineOfProduct product]
      let st2 := saveCart remoteFails localFails { st1 with cart := cart1 }
      { st2 with msgs := st2.msgs ++ ["Added " ++ product.name ++ " to cart"] }

/-- `removeFromCart` (src/api.js 482-492). -/
def removeFromCart (remoteFails localFails : Bool) (st : State) (productId : Nat) : State :=
  match st.currentUser with
  | none => { st with msgs := st.msgs ++ ["Please log in to manage cart"] }
  | some _ =>
    let st1 := saveCart remoteFails localFails
      { st with cart := st.cart.filter (fun it => it.id != productId) }
    { st1 with msgs := st1.msgs ++ ["Item removed from cart"] }

/-- `updateQuantity` (src/api.js 495-511). The source mutates the found
line in place (`item.quantity += change`) and then either delegates to
`removeFromCart` (new quantity <= 0) or saves. -/
def updateQuantity (remoteFails localFails : Bool) (st : State)
    (productId : Nat) (change : Int) : State :=
  match st.currentUser with
  | none => { st with msgs := st.msgs ++ ["Please log in to manage cart"] }
  | some _ =>
    match st.cart.find? (fun it => it.id == productId) with
    | none => st
    | some item =>
      let bumped := { st with cart := bumpFirst productId change st.cart }
      if item.quantity + change ≤ 0 then
        removeFromCart remoteFails localFails bumped productId
      else
        saveCart remoteFails localFails bumped

/-- `clearCart` (src/api.js 514-531). `confirmOk` is the oracle for the
`confirm(...)` dialog. -/
def clearCart (confirmOk remoteFails localFails : Bool) (st : State) : State :=
  match st.currentUser with
  | none => { st with msgs := st.msgs ++ ["Please log in to manage cart"] }
  | some _ =>
    if st.cart.isEmpty then
      { st with msgs := st.msgs ++ ["Cart is already empty"] }
    else if confirmOk then
      let st1 := saveCart remoteFails localFails { st with cart := [] }
      { st1 with msgs := st1.msgs ++ ["Cart cleared successfully"] }
    else st

/-- `updateCustomerStats` (src/api.js 1002-1009): find the first customer by
email and bump its counters. -/
def updateCustomerStats (email : String) (amount : Int) : List Customer → List Customer
  | [] => []
  | c :: rest =>
    if c.email == email then
      { c with orders := c.orders + 1, totalSpent := c.totalSpent + amount } :: rest
    else
      c :: updateCustomerStats email amount rest

/-- `handlePaymentSuccess` (src/api.js 745-818). `verif` models the
`/verify-payment` round trip: `none` when the `fetch` / `json()` call
throws, `some s` when it parses with `success = s`; both `none` and
`some false` land in the catch branch (811-817). On `some true` the order
is pushed, `saveOrders` mirrors the order list to localStorage,
`updateCustomerStats` runs, the cart is cleared and `saveCart` persists it
(`remoteFails` / `localFails` as in `saveCart`). -/
def handlePaymentSuccess (verif : Option Bool) (remoteFails localFails : Bool)
    (st : State) (reference email name phone address : String) (total : Int) : State :=
  match verif with
  | some true =>
    let order : Order :=
      { id := reference, customerEmail := email, customerName := name,
        customerPhone := phone, deliveryAddress := address,
        items := st.cart, total := total, status := "paid" }
    let st1 := { st with orders := st.orders ++ [order] }
    let st2 := { st1 with localOrders := st1.orders }
    let st3 := { st2 with customers := updateCustomerStats email total st2.customers }
    let st4 := { st3 with cart := [] }
    let st5 := saveCart remoteFails localFails st4
    { st5 with msgs := st5.msgs ++ ["Payment verified and completed successfully"] }
  | _ =>
    { st with msgs := st.msgs ++
        ["Payment verification failed", "Items kept in cart for retry"] }

/-- `getDefaultProducts` (src/api.js 346-421), display-only fields omitted. -/
def getDefaultProducts : List (String × List Product) :=
  [("clothing",
    [⟨1, "Designer T-Shirt", 4500, "clothing"⟩,
     ⟨2, "Casual Dress", 8500, "clothing"⟩,
     ⟨3, "Denim Jeans", 6500, "clothing"⟩,
     ⟨4, "Summer Blouse", 5500, "clothing"⟩]),
   ("service",
    [⟨101, "Classic Manicure", 2500, "service"⟩,
     ⟨102, "Gel Nails", 4500, "service"⟩,
     ⟨103, "Nail Art Design", 3500, "service"⟩,
     ⟨104, "Spa Pedicure", 5000, "service"⟩])]

/-- A fresh store state as built by the constructor (src/api.js 5-17) with
empty persisted data, using the fallback admin email of config-secure.js. -/
def baseState : State :=
  { currentUser := none, isAdmin := false,
    adminEmail := "admin@favsbling.com",
    products := getDefaultProducts,
    cart := [], orders := [], customers := [],
    remote := [], localCarts := [], localOrders := [], msgs := [] }

/-! ## Helper lemmas about the embedded operations -/

theorem saveCart_cart (rf lf : Bool) (st : State) : (saveCart rf lf st).cart = st.cart := by
  cases hu : st.currentUser <;> cases rf <;> cases lf <;> simp [saveCart, hu]

theorem saveCart_currentUser (rf lf : Bool) (st : State) :
    (saveCart rf lf st).currentUser = st.currentUser := by
  cases hu : st.currentUser <;> cases rf <;> cases lf <;> simp [saveCart, hu]

theorem saveCart_isAdmin (rf lf : Bool) (st : State) :
    (saveCart rf lf st).isAdmin = st.isAdmin := by
  cases hu : st.currentUser <;> cases rf <;> cases lf <;> simp [saveCart, hu]

theorem saveCart_orders (rf lf : Bool) (st : State) :
    (saveCart rf lf st).orders = st.orders := by
  cases hu : st.currentUser <;> cases rf <;> cases lf <;> simp [saveCart, hu]

theorem saveCart_localOrders (rf lf : Bool) (st : State) :
    (saveCart rf lf st).localOrders = st.localOrders := by
  cases hu : st.currentUser <;> cases rf <;> cases lf <;> simp [saveCart, hu]

theorem saveCart_customers (rf lf : Bool) (st : State) :
    (saveCart rf lf st).customers = st.customers := by
  cases hu : st.currentUser <;> cases rf <;> cases lf <;> simp [saveCart, hu]

theorem loadUserCartResume_currentUser (snap : Option Cart) (st : State) :
    (loadUserCartResume snap st).currentUser = st.currentUser := by
  cases snap <;> simp [loadUserCartResume]

theorem loadUserCartResume_isAdmin (snap : Option Cart) (st : State) :
    (loadUserCartResume snap st).isAdmin = st.isAdmin := by
  cases snap <;> simp [loadUserCartResume]

theorem loadUserCartResume_remote (snap : Option Cart) (st : State) :
    (loadUserCartResume snap st).remote = st.remote := by
  cases snap <;> simp [loadUserCartResume]

theorem loadUserCartResume_localCarts (snap : Option Cart) (st : State) :
    (loadUserCartResume snap st).localCarts = st.localCarts := by
  cases snap <;> simp [loadUserCartResume]

theorem loadUserCartResume_cart (snap : Option Cart) (st : State) :
    (loadUserCartResume snap st).cart = snap.getD [] := by
  cases snap <;> simp [loadUserCartResume]

theorem loadUserCart_currentUser (rf : Bool) (st : State) :
    (loadUserCart rf st).currentUser = st.currentUser := by
  cases hu : st.currentUser <;> cases rf <;>
    simp [loadUserCart, hu, loadUserCartResume_currentUser]

theorem loadUserCart_isAdmin (rf : Bool) (st : State) :
    (loadUserCart rf st).isAdmin = st.isAdmin := by
  cases hu : st.currentUser <;> cases rf <;>
    simp [loadUserCart, hu, loadUserCartResume_isAdmin]

theorem loadUserCart_remote (rf : Bool) (st : State) :
    (loadUserCart rf st).remote = st.remote := by
  cases hu : st.currentUser <;> cases rf <;>
    simp [loadUserCart, hu, loadUserCartResume_remote]

theorem loadUserCart_localCarts (rf : Bool) (st : State) :
    (loadUserCart rf st).localCarts = st.localCarts := by
  cases hu : st.currentUser <;> cases rf <;>
    simp [loadUserCart, hu, loadUserCartResume_localCarts]

theorem getK_setK (k : String) (v : Cart) (m : KVStore) :
    getK k (setK k v m) = some v := by
  simp [getK, setK]

/-- Splitting `loadUserCart` at the await is faithful: when nothing runs
between the suspension and the resumption, composing the two phases is the
atomic `loadUserCart` on a successful read. -/
theorem loadUserCart_phases (st : State) (u : User) :
    loadUserCart false (loginUntilLoadAwait st u).fst
      = loadUserCartResume
          (getK (loginUntilLoadAwait st u).snd (loginUntilLoadAwait st u).fst.remote)
          (loginUntilLoadAwait st u).fst := by
  simp [loadUserCart, loginUntilLoadAwait]

/-! ## Cart invariant machinery -/

/-- The cart invariant of the spec: at most one line per product id, and
every quantity at least 1. -/
def CartInv (c : Cart) : Prop :=
  (c.map (fun l => l.id)).Nodup ∧ ∀ l ∈ c, 1 ≤ l.quantity

instance (c : Cart) : Decidable (CartInv c) := by
  unfold CartInv; infer_instance

theorem bumpFirst_map_id (p : Nat) (d : Int) (c : Cart) :
    (bumpFirst p d c).map (fun l => l.id) = c.map (fun l => l.id) := by
  induction c with
  | nil => rfl
  | cons it rest ih =>
    cases hid : (it.id == p) <;> simp [bumpFirst, hid, ih]

theorem bumpFirst_length (p : Nat) (d : Int) (c : Cart) :
    (bumpFirst p d c).length = c.length := by
  induction c with
  | nil => rfl
  | cons it rest ih =>
    cases hid : (it.id == p) <;> simp [bumpFirst, hid, ih]

theorem bumpFirst_qty (p : Nat) (d : Int) (c : Cart)
    (h1 : ∀ l ∈ c, 1 ≤ l.quantity)
    (h2 : ∀ item, c.find? (fun it => it.id == p) = some item → 1 ≤ item.quantity + d) :
    ∀ l ∈ bumpFirst p d c, 1 ≤ l.quantity := by
  induction c with
  | nil => simp [bumpFirst]
  | cons it rest ih =>
    cases hid : (it.id == p) with
    | true =>
      simp only [bumpFirst, hid, if_pos]
      intro l hl
      rcases List.mem_cons.mp hl with h | h
      · subst h
        exact h2 it (by simp [List.find?, hid])
      · exact h1 l (List.mem_cons_of_mem _ h)
    | false =>
      simp only [bumpFirst, hid, Bool.false_eq_true, if_neg, not_false_iff]
      intro l hl
      rcases List.mem_cons.mp hl with h | h
      · subst h; exact h1 l (List.mem_cons_self _ _)
      · refine ih (fun x hx => h1 x (List.mem_cons_of_mem _ hx)) ?_ l h
        intro item hitem
        exact h2 item (by simp [List.find?, hid, hitem])

theorem bumpFirst_find? (p : Nat) (d : Int) (c : Cart) (item : CartLine)
    (h : c.find? (fun it => it.id == p) = some item) :
    (bumpFirst p d c).find? (fun it => it.id == p)
      = some { item with quantity := item.quantity + d } := by
  induction c with
  | nil => simp [List.find?] at h
  | cons it rest ih =>
    cases hid : (it.id == p) with
    | true =>
      simp [List.find?, hid] at h
      subst h
      simp [bumpFirst, hid, List.find?]
    | false =>
      simp only [List.find?, hid] at h
      simp only [bumpFirst, hid, Bool.false_eq_true, if_neg, not_false_iff, List.find?]
      exact ih h

theorem bumpFirst_filter_ne (p : Nat) (d : Int) (c : Cart) :
    (bumpFirst p d c).filter (fun it => it.id != p)
      = c.filter (fun it => it.id != p) := by
  induction c with
  | nil => rfl
  | cons it rest ih =>
    cases hid : (it.id == p) with
    | true => simp [bumpFirst, hid, List.filter, bne]
    | false =>
      have ih2 : List.filter (fun it => !(it.id == p)) (bumpFirst p d rest)
          = List.filter (fun it => !(it.id == p)) rest := by
        simpa [bne] using ih
      simp [bumpFirst, hid, List.filter, bne, ih2]

theorem cartInv_filter (c : Cart) (pid : Nat) (h : CartInv c) :
    CartInv (c.filter (fun it => it.id != pid)) := by
  constructor
  · exact h.1.sublist ((List.filter_sublist c).map _)
  · intro l hl
    exact h.2 l (List.mem_of_mem_filter hl)

theorem findProduct_id (st : State) (pid : Nat) (cat : String) (prod : Product)
    (h : findProduct st pid cat = some prod) : prod.id = pid := by
  unfold findProduct at h
  cases hm : (st.products.find? (fun e => e.fst == cat)).map (fun e => e.snd) with
  | none => rw [hm] at h; cases h
  | some l =>
    rw [hm] at h
    have := List.find?_some h
    simpa using this

theorem removeFromCart_cart_signedIn (rf lf : Bool) (st : State) (u : User) (pid : Nat)
    (hu : st.currentUser = some u) :
    (removeFromCart rf lf st pid).cart = st.cart.filter (fun it => it.id != pid) := by
  simp [removeFromCart, hu, saveCart_cart]

theorem cartInv_removeFromCart (rf lf : Bool) (st : State) (pid : Nat)
    (h : CartInv st.cart) : CartInv (removeFromCart rf lf st pid).cart := by
  cases hu : st.currentUser with
  | none => simpa [removeFromCart, hu] using h
  | some u =>
    rw [removeFromCart_cart_signedIn rf lf st u pid hu]
    exact cartInv_filter st.cart pid h

theorem cartInv_addToCart (rf lf : Bool) (st : State) (pid : Nat) (cat : String)
    (h : CartInv st.cart) : CartInv (addToCart rf lf st pid cat).cart := by
  cases hu : st.currentUser with
  | none => simpa [addToCart, requireAuthForAction, hu] using h
  | some u =>
    cases hp : findProduct st pid cat with
    | none => simpa [addToCart, requireAuthForAction, hu, hp] using h
    | some prod =>
      cases hf : st.cart.find? (fun it => it.id == pid) with
      | some item =>
        have hcart : (addToCart rf lf st pid cat).cart = bumpFirst pid 1 st.cart := by
          simp [addToCart, requireAuthForAction, hu, hp, hf, saveCart_cart]
        rw [hcart]
        constructor
        · rw [bumpFirst_map_id]; exact h.1
        · refine bumpFirst_qty pid 1 st.cart h.2 ?_
          intro it hit
          have hmem := List.mem_of_find?_eq_some hit
          have := h.2 it hmem
          omega
      | none =>
        have hcart : (addToCart rf lf st pid cat).cart
            = st.cart ++ [lineOfProduct prod] := by
          simp [addToCart, requireAuthForAction, hu, hp, hf, saveCart_cart]
        rw [hcart]
        have hid : prod.id = pid := findProduct_id st pid cat prod hp
        have hnotin : ∀ l ∈ st.cart, ¬(l.id == pid) = true :=
          List.find?_eq_none.mp hf
        constructor
        · rw [List.map_append]
          refine List.Nodup.append h.1 (by simp) ?_
          intro x hx hy
          simp only [List.map_cons, List.map_nil, List.mem_singleton] at hy
          rcases List.mem_map.mp hx with ⟨l, hl, hlx⟩
          have := hnotin l hl
          simp [lineOfProduct, hid] at hy
          apply this
          simp [hlx, hy]
        · intro l hl
          rcases List.mem_append.mp hl with hmem | hmem
          · exact h.2 l hmem
          · simp only [List.mem_singleton] at hmem
            subst hmem
            simp [lineOfProduct]

theorem cartInv_updateQuantity (rf lf : Bool) (st : State) (pid : Nat) (change : Int)
    (h : CartInv st.cart) : CartInv (updateQuantity rf lf st pid change).cart := by
  cases hu : st.currentUser with
  | none => simpa [updateQuantity, hu] using h
  | some u =>
    cases hf : st.cart.find? (fun it => it.id == pid) with
    | none => simpa [updateQuantity, hu, hf] using h
    | some item =>
      by_cases hq : item.quantity + change ≤ 0
      · have hcart : (updateQuantity rf lf st pid change).cart
            = st.cart.filter (fun it => it.id != pid) := by
          rw [show updateQuantity rf lf st pid change
              = removeFromCart rf lf
                  { st with cart := bumpFirst pid change st.cart } pid by
            simp [updateQuantity, hu, hf, hq]]
          rw [removeFromCart_cart_signedIn rf lf _ u pid (by simpa using hu)]
          simpa using bumpFirst_filter_ne pid change st.cart
        rw [hcart]
        exact cartInv_filter st.cart pid h
      · have hcart : (updateQuantity rf lf st pid change).cart
            = bumpFirst pid change st.cart := by
          simp [updateQuantity, hu, hf, hq, saveCart_cart]
        rw [hcart]
        constructor
        · rw [bumpFirst_map_id]; exact h.1
        · refine bumpFirst_qty pid change st.cart h.2 ?_
          intro it hit
          rw [hf] at hit
          cases hit
          omega

/-- One cart mutation, as fired from the UI while the claims range over
`addToCart` / `updateQuantity` / `removeFromCart` sequences. -/
inductive CartOp where
  | add (productId : Nat) (category : String) (rf lf : Bool)
  | update (productId : Nat) (change : Int) (rf lf : Bool)
  | remove (productId : Nat) (rf lf : Bool)
deriving DecidableEq, Repr

def applyOp (st : State) : CartOp → State
  | .add pid cat rf lf => addToCart rf lf st pid cat
  | .update pid ch rf lf => updateQuantity rf lf st pid ch
  | .remove pid rf lf => removeFromCart rf lf st pid

def runOps (st : State) : List CartOp → State
  | [] => st
  | op :: rest => runOps (applyOp st op) rest

theorem cartInv_applyOp (st : State) (op : CartOp) (h : CartInv st.cart) :
    CartInv (applyOp st op).cart := by
  cases op with
  | add pid cat rf lf => exact cartInv_addToCart rf lf st pid cat h
  | update pid ch rf lf => exact cartInv_updateQuantity rf lf st pid ch h
  | remove pid rf lf => exact cartInv_removeFromCart rf lf st pid h

theorem cartInv_runOps (ops : List CartOp) (st : State) (h : CartInv st.cart) :
    CartInv (runOps st ops).cart := by
  induction ops generalizing st with
  | nil => exact h
  | cons op rest ih => exact ih (applyOp st op) (cartInv_applyOp st op h)

/-! ## Concrete fixtures used by witnesses and counterexamples -/

/-- A plain (non-admin) user. -/
def u1 : User := { uid := "user1", email := "user1@x.com" }

/-- A case variant of the configured fallback admin email. -/
def uAdmin : User := { uid := "adm", email := "ADMIN@FavsBling.Com" }

/-- A cart line for product 1, quantity 2. -/
def lineTee : CartLine :=
  { id := 1, name := "Designer T-Shirt", price := 4500, category := "clothing", quantity := 2 }

/-! ## Claims -/

/-- C1: no cart mutation is applied while no user is signed in. Each cart
mutator (`addToCart`, `removeFromCart`, `updateQuantity`, `clearCart`),
called while `currentUser` is absent, leaves the in-memory cart unchanged
and performs no persistence write, remote or local. -/
theorem C1_mutators_noop_when_signed_out (st : State) (h : st.currentUser = none)
    (rf lf cok : Bool) (pid : Nat) (cat : String) (change : Int) :
    ((addToCart rf lf st pid cat).cart = st.cart ∧
     (addToCart rf lf st pid cat).remote = st.remote ∧
     (addToCart rf lf st pid cat).localCarts = st.localCarts) ∧
    ((removeFromCart rf lf st pid).cart = st.cart ∧
     (removeFromCart rf lf st pid).remote = st.remote ∧
     (removeFromCart rf lf st pid).localCarts = st.localCarts) ∧
    ((updateQuantity rf lf st pid change).cart = st.cart ∧
     (updateQuantity rf lf st pid change).remote = st.remote ∧
     (updateQuantity rf lf st pid change).localCarts = st.localCarts) ∧
    ((clearCart cok rf lf st).cart = st.cart ∧
     (clearCart cok rf lf st).remote = st.remote ∧
     (clearCart cok rf lf st).localCarts = st.localCarts) := by
  refine ⟨?_, ?_, ?_, ?_⟩ <;>
    simp [addToCart, removeFromCart, updateQuantity, clearCart, requireAuthForAction, h]

/-- Witness for C1 at the fresh signed-out store state. -/
theorem C1_witness :
    baseState.currentUser = none ∧
    ((addToCart true false baseState 1 "clothing").cart = baseState.cart ∧
     (addToCart true false baseState 1 "clothing").remote = baseState.remote ∧
     (addToCart true false baseState 1 "clothing").localCarts = baseState.localCarts) ∧
    ((removeFromCart true false baseState 1).cart = baseState.cart ∧
     (removeFromCart true false baseState 1).remote = baseState.remote ∧
     (removeFromCart true false baseState 1).localCarts = baseState.localCarts) ∧
    ((updateQuantity true false baseState 1 (-1)).cart = baseState.cart ∧
     (updateQuantity true false baseState 1 (-1)).remote = baseState.remote ∧
     (updateQuantity true false baseState 1 (-1)).localCarts = baseState.localCarts) ∧
    ((clearCart true true false baseState).cart = baseState.cart ∧
     (clearCart true true false baseState).remote = baseState.remote ∧
     (clearCart true true false baseState).localCarts = baseState.localCarts) :=
  ⟨by decide,
   C1_mutators_noop_when_signed_out baseState (by decide) true false true 1 "clothing" (-1)⟩

/-- C2: for every sequence of `addToCart` / `updateQuantity` /
`removeFromCart` calls while signed in, starting from a cart satisfying the
invariant, the cart keeps at most one line per product id and every line
quantity stays at least 1; and adding a product already in the cart
increments that line instead of appending a duplicate. -/
theorem C2_cart_invariant (ops : List CartOp) (st : State) (u : User)
    (hu : st.currentUser = some u) (h : CartInv st.cart) :
    CartInv (runOps st ops).cart ∧
    (∀ rf lf pid cat prod item,
      findProduct st pid cat = some prod →
      st.cart.find? (fun it => it.id == pid) = some item →
      (addToCart rf lf st pid cat).cart.length = st.cart.length ∧
      (addToCart rf lf st pid cat).cart.find? (fun it => it.id == pid)
        = some { item with quantity := item.quantity + 1 }) := by
  refine ⟨cartInv_runOps ops st h, ?_⟩
  intro rf lf pid cat prod item hp hf
  have hcart : (addToCart rf lf st pid cat).cart = bumpFirst pid 1 st.cart := by
    simp [addToCart, requireAuthForAction, hu, hp, hf, saveCart_cart]
  rw [hcart]
  exact ⟨bumpFirst_length pid 1 st.cart, bumpFirst_find? pid 1 st.cart item hf⟩

/-- The signed-in store state used by the C2 witness. -/
def stSigned : State := { baseState with currentUser := some u1 }

/-- The operation sequence used by the C2 witness: add product 1 twice,
then decrement it, then remove product 2. -/
def opsC2 : List CartOp :=
  [CartOp.add 1 "clothing" false false,
   CartOp.add 1 "clothing" false false,
   CartOp.update 1 (-1) false false,
   CartOp.remove 2 false false]

/-- Witness for C2: a concrete signed-in run, and a concrete double-add. -/
theorem C2_witness :
    stSigned.currentUser = some u1 ∧ CartInv stSigned.cart ∧
    CartInv (runOps stSigned opsC2).cart ∧
    (findProduct (addToCart false false stSigned 1 "clothing") 1 "clothing"
        = some ⟨1, "Designer T-Shirt", 4500, "clothing"⟩ ∧
     (addToCart false false stSigned 1 "clothing").cart.find? (fun it => it.id == 1)
        = some { id := 1, name := "Designer T-Shirt", price := 4500,
                 category := "clothing", quantity := 1 } ∧
     (addToCart false false (addToCart false false stSigned 1 "clothing") 1 "clothing").cart.length
        = (addToCart false false stSigned 1 "clothing").cart.length ∧
     (addToCart false false (addToCart false false stSigned 1 "clothing") 1 "clothing").cart.find?
        (fun it => it.id == 1)
        = some { id := 1, name := "Designer T-Shirt", price := 4500,
                 category := "clothing", quantity := 2 }) := by
  refine ⟨by decide, by decide, (C2_cart_invariant opsC2 stSigned u1 (by decide) (by decide)).1,
    by decide, by decide, ?_⟩
  have h2 := (C2_cart_invariant [] (addToCart false false stSigned 1 "clothing") u1
      (by decide) (by decide)).2 false false 1 "clothing"
      ⟨1, "Designer T-Shirt", 4500, "clothing"⟩
      { id := 1, name := "Designer T-Shirt", price := 4500,
        category := "clothing", quantity := 1 }
      (by decide) (by decide)
  exact ⟨h2.1, h2.2⟩

/-- The state before the C3 race: signed out, the remote store already
holds a cart for `user1`. -/
def c3Start : State := { baseState with remote := [("carts/user1", [lineTee])] }

/-- C3 evaluated on the code: the stale-load discard the spec requires is
absent. Run the interleaving: `handleUserLogin u1` executes its synchronous
prefix and suspends on the awaited cart read; `handleUserLogout` then runs
(clearing the cart); finally the pending read resolves and the
`loadUserCart` continuation applies the snapshot. The source continuation
never re-checks `currentUser`, so the in-memory cart ends as `user1`'s
remote cart — not the empty sequence the claim requires — while the session
is signed out. -/
theorem C3_stale_load_applied_not_discarded :
    (loadUserCartResume
        (getK (loginUntilLoadAwait c3Start u1).snd
          (handleUserLogout (loginUntilLoadAwait c3Start u1).fst).remote)
        (handleUserLogout (loginUntilLoadAwait c3Start u1).fst)).currentUser = none ∧
    (loadUserCartResume
        (getK (loginUntilLoadAwait c3Start u1).snd
          (handleUserLogout (loginUntilLoadAwait c3Start u1).fst).remote)
        (handleUserLogout (loginUntilLoadAwait c3Start u1).fst)).cart = [lineTee] := by
  constructor <;> decide

/-- The state before the C4 counterexample: `user1` is signed in with one
line in the in-memory cart, but the remote store holds no record for them
(for instance because the earlier save fell back to localStorage). -/
def c4Start : State := { baseState with currentUser := some u1, cart := [lineTee] }

/-- C4 counterexample: processing `handleUserLogin` again for the
already-current user is NOT a no-op on the in-memory cart — the cart is
reloaded from the remote store, here becoming empty because no remote
record exists. -/
theorem C4_counterexample :
    (handleUserLogin false c4Start u1).cart ≠ c4Start.cart := by
  decide

/-- C4 (amended): re-processing `handleUserLogin` for the already-current
user leaves `currentUser` and `isAdmin` unchanged, but it is not a no-op on
the in-memory cart: the cart is reloaded from the remote store — the remote
record if one exists, the empty sequence if none exists or the read fails —
so it changes whenever that reload differs from the in-memory cart. -/
theorem C4_same_user_relogin (st : State) (u : User) (rf : Bool)
    (hu : st.currentUser = some u)
    (ha : st.isAdmin = (lowerStr u.email == lowerStr st.adminEmail)) :
    (handleUserLogin rf st u).currentUser = st.currentUser ∧
    (handleUserLogin rf st u).isAdmin = st.isAdmin ∧
    (rf = true → (handleUserLogin rf st u).cart = []) ∧
    (rf = false →
      (handleUserLogin rf st u).cart = (getK ("carts/" ++ u.uid) st.remote).getD []) := by
  refine ⟨?_, ?_, ?_, ?_⟩
  · rw [hu]
    simp [handleUserLogin, loadUserCart_currentUser]
  · rw [ha]
    simp [handleUserLogin, loadUserCart_isAdmin]
  · intro hrf; subst hrf
    simp [handleUserLogin, loadUserCart]
  · intro hrf; subst hrf
    simp [handleUserLogin, loadUserCart, loadUserCartResume_cart]

/-- The state for the C4 amended-theorem witness: `user1` signed in, with
the remote record matching the in-memory cart. -/
def c4WitState : State :=
  { baseState with
    currentUser := some u1, cart := [lineTee],
    remote := [("carts/user1", [lineTee])] }

/-- Witness for the amended C4 at a concrete same-user re-login. -/
theorem C4_witness :
    c4WitState.currentUser = some u1 ∧
    c4WitState.isAdmin = (lowerStr u1.email == lowerStr c4WitState.adminEmail) ∧
    ((handleUserLogin false c4WitState u1).currentUser = c4WitState.currentUser ∧
     (handleUserLogin false c4WitState u1).isAdmin = c4WitState.isAdmin ∧
     (false = true → (handleUserLogin false c4WitState u1).cart = []) ∧
     (false = false →
       (handleUserLogin false c4WitState u1).cart
         = (getK ("carts/" ++ u1.uid) c4WitState.remote).getD [])) :=
  ⟨by decide, by decide, C4_same_user_relogin c4WitState u1 false (by decide) (by decide)⟩

/-- C5: logout clears the in-memory cart to the empty sequence and resets
`currentUser` / `isAdmin`, and performs no persistence write: the remote
store (in particular the record of the previously signed-in user), the
local fallback store and the order stores are untouched. -/
theorem C5_logout_clears_cart_no_write (st : State) :
    (handleUserLogout st).cart = [] ∧
    (handleUserLogout st).currentUser = none ∧
    (handleUserLogout st).isAdmin = false ∧
    (handleUserLogout st).remote = st.remote ∧
    (handleUserLogout st).localCarts = st.localCarts ∧
    (handleUserLogout st).localOrders = st.localOrders ∧
    (handleUserLogout st).orders = st.orders := by
  simp [handleUserLogout]

/-- C6: with a user signed in, `saveCart` writes the full current cart
keyed by the current user id to the remote store; if the remote write
fails, it writes the same cart to the local fallback store under the
user-qualified key `favsCart_<uid>` (provided the best-effort local write
itself does not throw) and reports the failure. Both throws are caught, so
the embedded function is total: no exception reaches the caller. -/
theorem C6_saveCart_remote_and_fallback (st : State) (u : User) (rf lf : Bool)
    (hu : st.currentUser = some u) :
    (rf = false →
      getK ("carts/" ++ u.uid) (saveCart rf lf st).remote = some st.cart ∧
      (saveCart rf lf st).localCarts = st.localCarts) ∧
    (rf = true →
      (saveCart rf lf st).remote = st.remote ∧
      "Error saving user cart to Firebase" ∈ (saveCart rf lf st).msgs ∧
      (lf = false →
        getK ("favsCart_" ++ u.uid) (saveCart rf lf st).localCarts = some st.cart)) ∧
    (saveCart rf lf st).cart = st.cart := by
  refine ⟨?_, ?_, saveCart_cart rf lf st⟩
  · intro hrf; subst hrf
    simp [saveCart, hu, getK_setK]
  · intro hrf; subst hrf
    cases lf <;> simp [saveCart, hu, getK_setK]

/-- The signed-in, one-line-cart state used by the C6 witness. -/
def stC6 : State := { baseState with currentUser := some u1, cart := [lineTee] }

/-- Witness for C6: a failing remote write with a working local fallback. -/
theorem C6_witness :
    stC6.currentUser = some u1 ∧
    (getK ("carts/" ++ u1.uid) (saveCart false false stC6).remote = some stC6.cart ∧
     (saveCart false false stC6).localCarts = stC6.localCarts) ∧
    ((saveCart true false stC6).remote = stC6.remote ∧
     "Error saving user cart to Firebase" ∈ (saveCart true false stC6).msgs ∧
     getK ("favsCart_" ++ u1.uid) (saveCart true false stC6).localCarts = some stC6.cart) := by
  have h0 := C6_saveCart_remote_and_fallback stC6 u1 false false (by decide)
  have h1 := C6_saveCart_remote_and_fallback stC6 u1 true false (by decide)
  exact ⟨by decide, h0.1 rfl, (h1.2.1 rfl).1, (h1.2.1 rfl).2.1, (h1.2.1 rfl).2.2 rfl⟩

/-- C7: `loadUserCart` reads only the remote entry of the current user:
the cart becomes the loaded record when one exists, the empty sequence when
none exists, and the empty sequence on read failure; the local fallback
store is never read (its contents cannot influence the result) and nothing
is written to either store. -/
theorem C7_loadUserCart_remote_only (st : State) (u : User) (rf : Bool)
    (hu : st.currentUser = some u) :
    (rf = false →
      (loadUserCart rf st).cart = (getK ("carts/" ++ u.uid) st.remote).getD []) ∧
    (rf = true → (loadUserCart rf st).cart = []) ∧
    (∀ lc : KVStore,
      (loadUserCart rf { st with localCarts := lc }).cart = (loadUserCart rf st).cart) ∧
    (loadUserCart rf st).remote = st.remote ∧
    (loadUserCart rf st).localCarts = st.localCarts := by
  refine ⟨?_, ?_, ?_, loadUserCart_remote rf st, loadUserCart_localCarts rf st⟩
  · intro hrf; subst hrf
    simp [loadUserCart, hu, loadUserCartResume_cart]
  · intro hrf; subst hrf
    simp [loadUserCart, hu]
  · intro lc
    cases rf <;> simp [loadUserCart, hu, loadUserCartResume_cart]

/-- The state used by the C7 witness: `user1` signed in, a remote record
for them, and a conflicting stale local-fallback entry that must be
ignored. -/
def stC7 : State :=
  { baseState with
    currentUser := some u1,
    remote := [("carts/user1", [lineTee])],
    localCarts := [("favsCart_user1", [])] }

/-- Witness for C7 at a concrete load. -/
theorem C7_witness :
    stC7.currentUser = some u1 ∧
    (loadUserCart false stC7).cart = (getK ("carts/" ++ u1.uid) stC7.remote).getD [] ∧
    (loadUserCart true stC7).cart = [] ∧
    (loadUserCart false { stC7 with localCarts := [] }).cart = (loadUserCart false stC7).cart ∧
    (loadUserCart false stC7).remote = stC7.remote ∧
    (loadUserCart false stC7).localCarts = stC7.localCarts := by
  have h0 := C7_loadUserCart_remote_only stC7 u1 false (by decide)
  have h1 := C7_loadUserCart_remote_only stC7 u1 true (by decide)
  exact ⟨by decide, h0.1 rfl, h1.2.1 rfl, h0.2.2.1 [], h0.2.2.2.1, h0.2.2.2.2⟩

theorem handleUserLogin_isAdmin (rf : Bool) (st : State) (u : User) :
    (handleUserLogin rf st u).isAdmin = (lowerStr u.email == lowerStr st.adminEmail) := by
  simp [handleUserLogin, loadUserCart_isAdmin]

/-- C8: on every processed login the admin flag is recomputed as
case-insensitive equality between the user's email and the configured admin
email — any case variant of the admin email yields `isAdmin = true`, any
other email yields `false` — and it depends on no other signal: two states
with the same configured admin email produce the same flag for the same
user. -/
theorem C8_isAdmin_recomputed (st : State) (u : User) (rf : Bool) :
    (handleUserLogin rf st u).isAdmin = (lowerStr u.email == lowerStr st.adminEmail) ∧
    (lowerStr u.email = lowerStr st.adminEmail → (handleUserLogin rf st u).isAdmin = true) ∧
    (lowerStr u.email ≠ lowerStr st.adminEmail → (handleUserLogin rf st u).isAdmin = false) ∧
    (∀ st2 : State, st2.adminEmail = st.adminEmail →
      (handleUserLogin rf st2 u).isAdmin = (handleUserLogin rf st u).isAdmin) := by
  refine ⟨handleUserLogin_isAdmin rf st u, ?_, ?_, ?_⟩
  · intro h
    rw [handleUserLogin_isAdmin]
    exact beq_iff_eq.mpr h
  · intro h
    rw [handleUserLogin_isAdmin]
    simpa using h
  · intro st2 h
    rw [handleUserLogin_isAdmin, handleUserLogin_isAdmin, h]

/-- Witness for C8: an upper-case variant of the configured admin email is
admin, a different email is not. -/
theorem C8_witness :
    (lowerStr uAdmin.email = lowerStr baseState.adminEmail ∧
     (handleUserLogin false baseState uAdmin).isAdmin = true) ∧
    (lowerStr u1.email ≠ lowerStr baseState.adminEmail ∧
     (handleUserLogin false baseState u1).isAdmin = false) :=
  ⟨⟨by decide, (C8_isAdmin_recomputed baseState uAdmin false).2.1 (by decide)⟩,
   ⟨by decide, (C8_isAdmin_recomputed baseState u1 false).2.2.1 (by decide)⟩⟩

/-- C9: with a user signed in and a line for product `pid` in the cart, any
delta driving the new quantity to 0 or below makes `updateQuantity` behave
exactly as `removeFromCart` — the resulting states (cart, persistence and
reported messages) are equal, the line is removed and the cart is saved. In
particular `updateQuantity pid (-quantity)` is `removeFromCart pid`. -/
theorem C9_update_nonpositive_is_remove (rf lf : Bool) (st : State) (u : User)
    (pid : Nat) (change : Int) (item : CartLine)
    (hu : st.currentUser = some u)
    (hf : st.cart.find? (fun it => it.id == pid) = some item)
    (hq : item.quantity + change ≤ 0) :
    updateQuantity rf lf st pid change = removeFromCart rf lf st pid ∧
    (updateQuantity rf lf st pid change).cart = st.cart.filter (fun it => it.id != pid) := by
  have heq : updateQuantity rf lf st pid change
      = removeFromCart rf lf { st with cart := bumpFirst pid change st.cart } pid := by
    simp [updateQuantity, hu, hf, hq]
  have hrem : removeFromCart rf lf { st with cart := bumpFirst pid change st.cart } pid
      = removeFromCart rf lf st pid := by
    have hfil := bumpFirst_filter_ne pid change st.cart
    simp only [removeFromCart, hu] at *
    rw [hfil]
  refine ⟨heq.trans hrem, ?_⟩
  rw [heq.trans hrem, removeFromCart_cart_signedIn rf lf st u pid hu]

/-- The signed-in state used by the C9 witness. -/
def stC9 : State := { baseState with currentUser := some u1, cart := [lineTee] }

/-- Witness for C9: removing the whole quantity of the only line. -/
theorem C9_witness :
    stC9.currentUser = some u1 ∧
    stC9.cart.find? (fun it => it.id == 1) = some lineTee ∧
    lineTee.quantity + (-2) ≤ 0 ∧
    updateQuantity false false stC9 1 (-2) = removeFromCart false false stC9 1 ∧
    (updateQuantity false false stC9 1 (-2)).cart
      = stC9.cart.filter (fun it => it.id != 1) := by
  have h := C9_update_nonpositive_is_remove false false stC9 u1 1 (-2) lineTee
    (by decide) (by decide) (by decide)
  exact ⟨by decide, by decide, by decide, h.1, h.2⟩

/-- C10: checkout treats a failed verification atomically. When the
`/verify-payment` request fails or returns `success:false`, the in-memory
cart, the order list and every persistence store are left unchanged (items
kept for retry, no order recorded); only when verification succeeds is the
order appended (and mirrored to the order store), the cart cleared, and the
empty cart persisted for the signed-in user. -/
theorem C10_verification_gates_order (verif : Option Bool) (rf lf : Bool) (st : State)
    (reference email name phone address : String) (total : Int) :
    (verif ≠ some true →
      (handlePaymentSuccess verif rf lf st reference email name phone address total).cart
        = st.cart ∧
      (handlePaymentSuccess verif rf lf st reference email name phone address total).orders
        = st.orders ∧
      (handlePaymentSuccess verif rf lf st reference email name phone address total).localOrders
        = st.localOrders ∧
      (handlePaymentSuccess verif rf lf st reference email name phone address total).remote
        = st.remote ∧
      (handlePaymentSuccess verif rf lf st reference email name phone address total).localCarts
        = st.localCarts) ∧
    (verif = some true →
      (handlePaymentSuccess verif rf lf st reference email name phone address total).orders
        = st.orders ++
          [{ id := reference, customerEmail := email, customerName := name,
             customerPhone := phone, deliveryAddress := address,
             items := st.cart, total := total, status := "paid" }] ∧
      (handlePaymentSuccess verif rf lf st reference email name phone address total).localOrders
        = st.orders ++
          [{ id := reference, customerEmail := email, customerName := name,
             customerPhone := phone, deliveryAddress := address,
             items := st.cart, total := total, status := "paid" }] ∧
      (handlePaymentSuccess verif rf lf st reference email name phone address total).cart
        = [] ∧
      (∀ u2, st.currentUser = some u2 → rf = false →
        getK ("carts/" ++ u2.uid)
          (handlePaymentSuccess verif rf lf st reference email name phone address total).remote
          = some [])) := by
  constructor
  · intro hv
    cases verif with
    | none => simp [handlePaymentSuccess]
    | some b =>
      cases b with
      | false => simp [handlePaymentSuccess]
      | true => exact absurd rfl hv
  · intro hv; subst hv
    refine ⟨?_, ?_, ?_, ?_⟩
    · simp [handlePaymentSuccess, saveCart_orders]
    · simp [handlePaymentSuccess, saveCart_localOrders]
    · simp [handlePaymentSuccess, saveCart_cart]
    · intro u2 hu2 hrf; subst hrf
      simp [handlePaymentSuccess, saveCart, hu2, getK_setK]

/-- The signed-in state used by the C10 witness. -/
def stC10 : State := { baseState with currentUser := some u1, cart := [lineTee] }

/-- Witness for C10: one failed and one successful verification. -/
theorem C10_witness :
    ((handlePaymentSuccess (some false) false false stC10 "FB_1" "a@b.com" "A" "p" "q" 9000).cart
        = stC10.cart ∧
     (handlePaymentSuccess (some false) false false stC10 "FB_1" "a@b.com" "A" "p" "q" 9000).orders
        = stC10.orders) ∧
    ((handlePaymentSuccess (some true) false false stC10 "FB_1" "a@b.com" "A" "p" "q" 9000).orders
        = stC10.orders ++
          [{ id := "FB_1", customerEmail := "a@b.com", customerName := "A",
             customerPhone := "p", deliveryAddress := "q",
             items := stC10.cart, total := 9000, status := "paid" }] ∧
     (handlePaymentSuccess (some true) false false stC10 "FB_1" "a@b.com" "A" "p" "q" 9000).cart
        = [] ∧
     getK ("carts/" ++ u1.uid)
       (handlePaymentSuccess (some true) false false stC10 "FB_1" "a@b.com" "A" "p" "q" 9000).remote
        = some []) := by
  have hfail := C10_verification_gates_order (some false) false false stC10
    "FB_1" "a@b.com" "A" "p" "q" 9000
  have hok := C10_verification_gates_order (some true) false false stC10
    "FB_1" "a@b.com" "A" "p" "q" 9000
  exact ⟨⟨(hfail.1 (by decide)).1, (hfail.1 (by decide)).2.1⟩,
    (hok.2 rfl).1, (hok.2 rfl).2.2.1, (hok.2 rfl).2.2.2 u1 (by decide) rfl⟩
